import Mathlib

/-!
Shallow embedding of the Balance_recorder application (src/app.py).

The application is a Streamlit + SQLite bookkeeping tool.  We embed the
database as an in-memory state (lists of rows plus autoincrement counters)
and each SQL-backed Python function as a Lean function on that state.

Modelling conventions:
 *  SQLite REAL amounts are modelled as exact rationals (the spec treats
    amounts as plain decimal arithmetic).
 *  `datetime.now()` is passed in explicitly as a `now : String` argument.
 *  `hashlib.pbkdf2_hmac` is a deterministic string-to-string function; every
    claim about registration/login holds for an arbitrary deterministic hash,
    so the operations are parameterised over `f : String → String`.
 *  SQLite `strftime('%Y-%m', date_time)` on the timestamps the application
    writes (format `YYYY-MM-DD HH:MM:SS`) is the first seven characters of
    the stored string; it is embedded as `strftimeYM` below.
 *  `INSERT` appends a row; `SELECT ... ORDER BY date_time DESC` is embedded
    as an insertion sort by descending timestamp string (SQLite BINARY
    collation on the app's ASCII timestamps coincides with Lean's `String`
    order).
-/

/-- A row of the `users` table: `(id, name, email, password)` where
`password` stores the hex digest produced by `hash_password`. -/
structure User where
  id : Nat
  name : String
  email : String
  password : String
deriving Repr, DecidableEq

/-- A row of the `transactions` table. -/
structure Transaction where
  id : Nat
  customer_id : Nat
  date_time : String
  type : String
  total_amount : ℚ
  amount_received : ℚ
  amount_left : ℚ
  note : String
deriving Repr, DecidableEq

/-- The database state: the two tables the claims are about, together with
the AUTOINCREMENT counters for their primary keys. -/
structure AppState where
  users : List User
  next_user_id : Nat
  transactions : List Transaction
  next_trans_id : Nat
deriving Repr, DecidableEq

/-- `strftime('%Y-%m', date_time)` for the timestamps this application
writes: the `YYYY-MM` prefix, i.e. the first seven characters. -/
def strftimeYM (s : String) : String :=
  ⟨s.data.take 7⟩

/-- `register_user(name, email, password)` (src/app.py:88-101): inserts the
user and returns `(True, id, name)`, or hits the UNIQUE constraint on
`email` (IntegrityError) and returns `(False, None, None)` leaving the
database untouched.  The success payload is modelled as `Option (Nat × String)`. -/
def register_user (f : String → String) (s : AppState)
    (name email password : String) : Option (Nat × String) × AppState :=
  if s.users.any (fun u => u.email == email) then
    (none, s)
  else
    let uid := s.next_user_id
    (some (uid, name),
     { s with
        users := s.users ++ [⟨uid, name, email, f password⟩],
        next_user_id := uid + 1 })

/-- `login_user(email, password)` (src/app.py:103-114): selects the row with
matching email and stored digest equal to the hash of the supplied password;
returns `(True, id, name)` if one exists, `(False, None, None)` otherwise. -/
def login_user (f : String → String) (s : AppState)
    (email password : String) : Option (Nat × String) :=
  match s.users.find? (fun u => u.email == email && u.password == f password) with
  | some u => some (u.id, u.name)
  | none => none

/-- Descending-timestamp order used by `ORDER BY date_time DESC`. -/
def tsDesc (a b : Transaction) : Prop :=
  b.date_time ≤ a.date_time

instance : DecidableRel tsDesc := fun a b =>
  inferInstanceAs (Decidable (b.date_time ≤ a.date_time))

instance : IsTotal Transaction tsDesc :=
  ⟨fun a b => le_total b.date_time a.date_time⟩

instance : IsTrans Transaction tsDesc :=
  ⟨fun _ _ _ h1 h2 => le_trans h2 h1⟩

/-- `get_transactions(customer_id, month_filter)` (src/app.py:135-155).
In Python, `if month_filter and month_filter != "All Months"` applies the
month restriction: `None` and the empty string are falsy, so only a
non-empty string different from `"All Months"` triggers the filtered query. -/
def get_transactions (s : AppState) (customer_id : Nat)
    (month_filter : Option String) : List Transaction :=
  let rows :=
    match month_filter with
    | some m =>
        if m != "" && m != "All Months" then
          s.transactions.filter
            (fun t => t.customer_id == customer_id && strftimeYM t.date_time == m)
        else
          s.transactions.filter (fun t => t.customer_id == customer_id)
    | none => s.transactions.filter (fun t => t.customer_id == customer_id)
  List.insertionSort tsDesc rows

/-- `add_transaction(customer_id, trans_type, total_amount, amount_received,
amount_left, note)` (src/app.py:171-180); `date_time = datetime.now()` is the
explicit `now` argument. -/
def add_transaction (s : AppState) (customer_id : Nat) (now : String)
    (trans_type : String) (total_amount amount_received amount_left : ℚ)
    (note : String) : AppState :=
  { s with
      transactions := s.transactions ++
        [⟨s.next_trans_id, customer_id, now, trans_type,
          total_amount, amount_received, amount_left, note⟩],
      next_trans_id := s.next_trans_id + 1 }

/-- `update_transaction(trans_id, trans_type, total_amount, amount_received,
amount_left, note)` (src/app.py:182-191): `UPDATE ... SET` of the five
mutable columns on every row whose `id` matches. -/
def update_transaction (s : AppState) (trans_id : Nat) (trans_type : String)
    (total_amount amount_received amount_left : ℚ) (note : String) : AppState :=
  { s with
      transactions := s.transactions.map (fun t =>
        if t.id == trans_id then
          { t with
              type := trans_type,
              total_amount := total_amount,
              amount_received := amount_received,
              amount_left := amount_left,
              note := note }
        else t) }

/-- `delete_transaction(trans_id)` (src/app.py:193-199): `DELETE FROM
transactions WHERE id = ?`. -/
def delete_transaction (s : AppState) (trans_id : Nat) : AppState :=
  { s with transactions := s.transactions.filter (fun t => t.id != trans_id) }

/-- `calculate_summary(transactions)` (src/app.py:214-219): in a fetched row
`t`, `t[2]` is the type and `t[3]` the total amount. -/
def calculate_summary (transactions : List Transaction) : ℚ × ℚ × ℚ :=
  let total_received :=
    ((transactions.filter (fun t => t.type == "Received")).map
      (fun t => t.total_amount)).sum
  let total_given :=
    ((transactions.filter (fun t => t.type == "Given")).map
      (fun t => t.total_amount)).sum
  (total_received, total_given, total_received - total_given)

/-- The save branch of the transaction form (src/app.py:438, 453-465):
the form computes `amount_left = total_amount - amount_received`, then the
save handler accepts only when `total_amount > 0`, calling
`update_transaction` when an edit id is set and `add_transaction` otherwise;
on `total_amount ≤ 0` it shows an error and writes nothing.  The returned
pair is (error message if any, resulting database state). -/
def save_transaction (s : AppState) (edit_transaction_id : Option Nat)
    (customer_id : Nat) (now : String) (trans_type : String)
    (total_amount amount_received : ℚ) (note : String) :
    Option String × AppState :=
  let amount_left := total_amount - amount_received
  if total_amount > 0 then
    match edit_transaction_id with
    | some tid =>
        (none, update_transaction s tid trans_type total_amount
          amount_received amount_left note)
    | none =>
        (none, add_transaction s customer_id now trans_type total_amount
          amount_received amount_left note)
  else
    (some "Total Amount must be greater than 0", s)

/-! ### Helper lemmas -/

lemma sum_amount_filter (p : Transaction → Bool) (ts : List Transaction) :
    ((ts.filter p).map (fun t => t.total_amount)).sum
      = (ts.map (fun t => if p t then t.total_amount else 0)).sum := by
  induction ts with
  | nil => simp
  | cons t ts ih =>
      by_cases h : p t <;> simp [List.filter_cons, h, ih]

lemma find?_append_of_notfound {α : Type} (p : α → Bool) (l₁ l₂ : List α)
    (h : ∀ x ∈ l₁, p x = false) :
    List.find? p (l₁ ++ l₂) = List.find? p l₂ := by
  rw [List.find?_append]
  have h1 : List.find? p l₁ = none :=
    List.find?_eq_none.mpr (fun x hx => by simp [h x hx])
  rw [h1, Option.none_or]

/-- Concrete states used by the witnesses below. -/
def s0 : AppState := ⟨[], 1, [], 1⟩

def tx1 : Transaction := ⟨1, 1, "2024-03-05 10:00:00", "Received", 100, 30, 70, "first"⟩

def tx2 : Transaction := ⟨2, 1, "2024-02-01 09:00:00", "Given", 50, 50, 0, ""⟩

def tx3 : Transaction := ⟨3, 2, "2024-03-07 11:00:00", "Received", 20, 0, 20, ""⟩

def s1 : AppState := ⟨[], 1, [tx1, tx2, tx3], 4⟩

/-! ### Claims -/

/-- C2: `calculate_summary` returns the sum of `total_amount` over the
`Received` transactions, the sum over the `Given` transactions, and their
difference as the balance; it is a pure function of the in-memory list, and
on `[{Received, total 100}, {Given, total 40}]` it yields `(100, 40, 60)`. -/
theorem calculate_summary_correct (ts : List Transaction) :
    (calculate_summary ts).1
        = (ts.map (fun t => if t.type = "Received" then t.total_amount else 0)).sum
    ∧ (calculate_summary ts).2.1
        = (ts.map (fun t => if t.type = "Given" then t.total_amount else 0)).sum
    ∧ (calculate_summary ts).2.2 = (calculate_summary ts).1 - (calculate_summary ts).2.1
    ∧ calculate_summary
        [⟨1, 1, "2024-01-01 00:00:00", "Received", 100, 0, 100, ""⟩,
         ⟨2, 1, "2024-01-01 00:00:01", "Given", 40, 0, 40, ""⟩]
        = (100, 40, 60) := by
  refine ⟨?_, ?_, rfl, ?_⟩
  · rw [show (calculate_summary ts).1
        = ((ts.filter (fun t => t.type == "Received")).map (fun t => t.total_amount)).sum
        from rfl, sum_amount_filter]
    simp
  · rw [show (calculate_summary ts).2.1
        = ((ts.filter (fun t => t.type == "Given")).map (fun t => t.total_amount)).sum
        from rfl, sum_amount_filter]
    simp
  · simp [calculate_summary, List.filter]
    norm_num

/-- C3: the transaction-form save handler rejects with the invalid-amount
error exactly when `total_amount ≤ 0`, leaving the database state unchanged
on rejection, and succeeds (no error) for every strictly positive
`total_amount`, for both the add path and the edit path. -/
theorem save_transaction_invalid_amount (s : AppState) (eid : Option Nat)
    (cid : Nat) (now ty note : String) (total recv : ℚ) :
    ((save_transaction s eid cid now ty total recv note).1.isSome ↔ total ≤ 0)
    ∧ (total ≤ 0 → (save_transaction s eid cid now ty total recv note).2 = s)
    ∧ (0 < total → (save_transaction s eid cid now ty total recv note).1 = none) := by
  unfold save_transaction
  by_cases h : total > 0
  · cases eid <;> simp [h, not_le.mpr h]
  · cases eid <;> simp [h, not_lt.mp h]

/-- Witness for C3: with `total_amount = 0` and `total_amount = -5` the save
is rejected and the state is untouched; with `total_amount = 5` no error is
produced. -/
theorem save_transaction_invalid_amount_witness :
    (save_transaction s0 none 1 "2024-01-01 00:00:00" "Received" 0 0 "").2 = s0
    ∧ (save_transaction s0 none 1 "2024-01-01 00:00:00" "Received" (-5) 0 "").2 = s0
    ∧ (save_transaction s0 none 1 "2024-01-01 00:00:00" "Received" 5 0 "").1 = none :=
  ⟨(save_transaction_invalid_amount s0 none 1 "2024-01-01 00:00:00" "Received" "" 0 0).2.1
      (by decide),
   (save_transaction_invalid_amount s0 none 1 "2024-01-01 00:00:00" "Received" "" (-5) 0).2.1
      (by decide),
   (save_transaction_invalid_amount s0 none 1 "2024-01-01 00:00:00" "Received" "" 5 0).2.2
      (by decide)⟩

/-- C1: every transaction written by an accepted save (add path or edit
path) stores `amount_left` as exactly `total_amount - amount_received`; the
value is the plain difference, not clamped, so it is negative whenever
`amount_received` exceeds `total_amount`.  Rows already present and not
rewritten are the only other rows of the resulting state. -/
theorem save_transaction_amount_left (s : AppState) (eid : Option Nat)
    (cid : Nat) (now ty note : String) (total recv : ℚ)
    (h : (save_transaction s eid cid now ty total recv note).1 = none) :
    ∀ t ∈ (save_transaction s eid cid now ty total recv note).2.transactions,
      t ∈ s.transactions
      ∨ (t.total_amount = total ∧ t.amount_received = recv
          ∧ t.amount_left = total - recv) := by
  unfold save_transaction at *
  by_cases hpos : total > 0
  · cases eid with
    | none =>
        simp only [hpos, if_true, add_transaction] at *
        intro t ht
        rcases List.mem_append.mp ht with hold | hnew
        · exact Or.inl hold
        · right
          rcases List.mem_singleton.mp hnew with rfl
          exact ⟨rfl, rfl, rfl⟩
    | some tid =>
        simp only [hpos, if_true, update_transaction] at *
        intro t ht
        rcases List.mem_map.mp ht with ⟨t0, ht0, hft⟩
        by_cases hid : t0.id == tid
        · right
          rw [if_pos hid] at hft
          rw [← hft]
          exact ⟨rfl, rfl, rfl⟩
        · left
          rw [if_neg hid] at hft
          rw [← hft]
          exact ht0
  · simp [hpos] at h

/-- Witness for C1: an accepted add with `total_amount = 5` and
`amount_received = 12` (so the stored `amount_left` is the negative value
`5 - 12`). -/
theorem save_transaction_amount_left_witness :
    ((save_transaction s0 none 1 "2024-01-01 00:00:00" "Received" 5 12 "n").1 = none)
    ∧ ∀ t ∈ (save_transaction s0 none 1 "2024-01-01 00:00:00" "Received" 5 12 "n").2.transactions,
        t ∈ s0.transactions
        ∨ (t.total_amount = 5 ∧ t.amount_received = 12
            ∧ t.amount_left = 5 - 12) :=
  ⟨rfl,
   save_transaction_amount_left s0 none 1 "2024-01-01 00:00:00" "Received" "n" 5 12 rfl⟩

/-- C8: deleting a transaction id that is not present in the store is a
silent no-op: the operation is total (it raises nothing) and returns the
state unchanged, every row included. -/
theorem delete_transaction_missing_noop (s : AppState) (tid : Nat)
    (h : ∀ t ∈ s.transactions, t.id ≠ tid) :
    delete_transaction s tid = s := by
  unfold delete_transaction
  have hfix : s.transactions.filter (fun t => t.id != tid) = s.transactions :=
    List.filter_eq_self.mpr (fun t ht => by simpa using h t ht)
  rw [hfix]

/-- Witness for C8: deleting id 99 from a store holding ids 1, 2, 3 returns
the store unchanged. -/
theorem delete_transaction_missing_noop_witness :
    delete_transaction s1 99 = s1 :=
  delete_transaction_missing_noop s1 99 (by decide)


/-- C9: an accepted edit save overwrites exactly the mutable fields (type,
total_amount, amount_received, amount_left, note) of the rows whose id
matches, keeps their id, customer_id and creation timestamp, leaves every
other row literally unchanged (position by position), and touches neither
the users table nor the autoincrement counters. -/
theorem save_transaction_update_frame (s : AppState) (tid cid : Nat)
    (now ty note : String) (total recv : ℚ) (s' : AppState)
    (h : save_transaction s (some tid) cid now ty total recv note = (none, s')) :
    s'.transactions.length = s.transactions.length
    ∧ s'.users = s.users
    ∧ s'.next_user_id = s.next_user_id
    ∧ s'.next_trans_id = s.next_trans_id
    ∧ ∀ (i : Nat) (t t' : Transaction),
        s.transactions[i]? = some t → s'.transactions[i]? = some t' →
        (t'.id = t.id ∧ t'.customer_id = t.customer_id ∧ t'.date_time = t.date_time
         ∧ (t.id = tid →
              t'.type = ty ∧ t'.total_amount = total ∧ t'.amount_received = recv
              ∧ t'.amount_left = total - recv ∧ t'.note = note)
         ∧ (t.id ≠ tid → t' = t)) := by
  by_cases hpos : total > 0
  · have hs' : s' = update_transaction s tid ty total recv (total - recv) note := by
      have h2 := congrArg Prod.snd h
      simp only [save_transaction, hpos, if_true] at h2
      exact h2.symm
    subst hs'
    unfold update_transaction
    refine ⟨List.length_map _ _, rfl, rfl, rfl, ?_⟩
    intro i t t' hget hget'
    simp only [List.getElem?_map, hget, Option.map_some] at hget'
    have ht' : t' = (if (t.id == tid) = true then
        { t with
            type := ty, total_amount := total, amount_received := recv,
            amount_left := total - recv, note := note }
      else t) := (Option.some.inj hget').symm
    by_cases hid : t.id = tid
    · rw [if_pos (beq_iff_eq.mpr hid)] at ht'
      subst ht'
      exact ⟨rfl, rfl, rfl, fun _ => ⟨rfl, rfl, rfl, rfl, rfl⟩, fun hc => absurd hid hc⟩
    · rw [if_neg (by simpa using hid)] at ht'
      subst ht'
      exact ⟨rfl, rfl, rfl, fun hc => absurd hc hid, fun _ => rfl⟩
  · have h1 := congrArg Prod.fst h
    simp only [save_transaction, hpos, if_false] at h1
    exact absurd h1 (by simp)

/-- Witness for C9: editing transaction id 1 in a three-row store. -/
theorem save_transaction_update_frame_witness :
    (save_transaction s1 (some 1) 1 "2024-04-01 08:00:00" "Given" 9 4 "e").2.transactions.length
        = s1.transactions.length
    ∧ (save_transaction s1 (some 1) 1 "2024-04-01 08:00:00" "Given" 9 4 "e").2.users = s1.users
    ∧ (save_transaction s1 (some 1) 1 "2024-04-01 08:00:00" "Given" 9 4 "e").2.next_user_id
        = s1.next_user_id
    ∧ (save_transaction s1 (some 1) 1 "2024-04-01 08:00:00" "Given" 9 4 "e").2.next_trans_id
        = s1.next_trans_id
    ∧ ∀ (i : Nat) (t t' : Transaction),
        s1.transactions[i]? = some t →
        (save_transaction s1 (some 1) 1 "2024-04-01 08:00:00" "Given" 9 4 "e").2.transactions[i]?
            = some t' →
        (t'.id = t.id ∧ t'.customer_id = t.customer_id ∧ t'.date_time = t.date_time
         ∧ (t.id = 1 →
              t'.type = "Given" ∧ t'.total_amount = 9 ∧ t'.amount_received = 4
              ∧ t'.amount_left = 9 - 4 ∧ t'.note = "e")
         ∧ (t.id ≠ 1 → t' = t)) :=
  save_transaction_update_frame s1 1 1 "2024-04-01 08:00:00" "Given" "e" 9 4
    (save_transaction s1 (some 1) 1 "2024-04-01 08:00:00" "Given" 9 4 "e").2 rfl

/-- C4: whenever registration succeeds, authenticating with the same email
and password against the resulting state succeeds and returns the same user
id (and name).  This holds for every deterministic password hash `f`. -/
theorem register_then_login (f : String → String) (s : AppState)
    (nm em pw : String) (uid : Nat) (rnm : String) (s' : AppState)
    (h : register_user f s nm em pw = (some (uid, rnm), s')) :
    login_user f s' em pw = some (uid, rnm) := by
  by_cases hdup : s.users.any (fun u => u.email == em)
  · simp [register_user, hdup] at h
  · have hpair : (some ((s.next_user_id : Nat), nm),
        ({ s with
            users := s.users ++ [⟨s.next_user_id, nm, em, f pw⟩],
            next_user_id := s.next_user_id + 1 } : AppState))
        = (some (uid, rnm), s') := by
      rw [← h]
      simp [register_user, hdup]
    obtain ⟨h1, h2⟩ := Prod.mk.injEq .. ▸ hpair
    obtain ⟨huid, hrnm⟩ := Prod.mk.injEq .. ▸ Option.some.inj h1
    subst huid hrnm
    rw [← h2]
    unfold login_user
    have hnone : ∀ u ∈ s.users,
        (u.email == em && u.password == f pw) = false := by
      intro u hu
      have : (u.email == em) = false := by
        by_contra hc
        exact hdup (List.any_eq_true.mpr ⟨u, hu, by simpa using hc⟩)
      simp [this]
    rw [show ({ s with
            users := s.users ++ [⟨s.next_user_id, nm, em, f pw⟩],
            next_user_id := s.next_user_id + 1 } : AppState).users
          = s.users ++ [⟨s.next_user_id, nm, em, f pw⟩] from rfl,
        find?_append_of_notfound _ _ _ hnone]
    simp

/-- Witness for C4: registering a fresh user against the empty store and
logging in with the same credentials (with the identity function standing in
for the hash). -/
theorem register_then_login_witness :
    login_user (fun p => p) (register_user (fun p => p) s0 "N" "a@b" "pw").2 "a@b" "pw"
      = some (1, "N") :=
  register_then_login (fun p => p) s0 "N" "a@b" "pw" 1 "N"
    (register_user (fun p => p) s0 "N" "a@b" "pw").2 rfl

/-- C5: registration fails (hits the UNIQUE email constraint) exactly when a
user with the given email is already stored, and on failure the state —
including the previously registered account — is returned unchanged. -/
theorem register_email_taken (f : String → String) (s : AppState)
    (nm em pw : String) :
    ((register_user f s nm em pw).1 = none ↔ ∃ u ∈ s.users, u.email = em)
    ∧ ((register_user f s nm em pw).1 = none → (register_user f s nm em pw).2 = s) := by
  by_cases hdup : s.users.any (fun u => u.email == em)
  · have hex : ∃ u ∈ s.users, u.email = em := by
      obtain ⟨u, hu, he⟩ := List.any_eq_true.mp hdup
      exact ⟨u, hu, by simpa using he⟩
    simp [register_user, hdup, hex]
  · have hnex : ¬∃ u ∈ s.users, u.email = em := by
      intro ⟨u, hu, he⟩
      exact hdup (List.any_eq_true.mpr ⟨u, hu, by simpa using he⟩)
    simp [register_user, hdup, hnex]

/-- Witness for C5: re-registering the email `a@b` against a store that
already holds it fails and leaves the store unchanged. -/
theorem register_email_taken_witness :
    ((register_user (fun p => p) (register_user (fun p => p) s0 "N" "a@b" "pw").2
        "M" "a@b" "other").1 = none)
    ∧ (register_user (fun p => p) (register_user (fun p => p) s0 "N" "a@b" "pw").2
        "M" "a@b" "other").2
      = (register_user (fun p => p) s0 "N" "a@b" "pw").2 :=
  ⟨(register_email_taken (fun p => p) (register_user (fun p => p) s0 "N" "a@b" "pw").2
      "M" "a@b" "other").1.mpr ⟨⟨1, "N", "a@b", "pw"⟩, by decide, rfl⟩,
   (register_email_taken (fun p => p) (register_user (fun p => p) s0 "N" "a@b" "pw").2
      "M" "a@b" "other").2
     ((register_email_taken (fun p => p) (register_user (fun p => p) s0 "N" "a@b" "pw").2
        "M" "a@b" "other").1.mpr ⟨⟨1, "N", "a@b", "pw"⟩, by decide, rfl⟩)⟩

/-- C6: authentication fails with the one and only failure value in both the
no-such-email case and the wrong-password case: any two such attempts, even
against different stores, produce identical results, so the outcome does not
reveal which of the two cases occurred. -/
theorem login_uniform_failure (f : String → String) (sa sb : AppState)
    (ea pa eb pb : String)
    (ha : ∀ u ∈ sa.users, u.email ≠ ea)
    (hb : ∀ u ∈ sb.users, u.email = eb → u.password ≠ f pb) :
    login_user f sa ea pa = login_user f sb eb pb := by
  have hA : login_user f sa ea pa = none := by
    unfold login_user
    rw [List.find?_eq_none.mpr]
    intro u hu
    simp only [Bool.and_eq_true, beq_iff_eq, not_and]
    intro he
    exact absurd he (ha u hu)
  have hB : login_user f sb eb pb = none := by
    unfold login_user
    rw [List.find?_eq_none.mpr]
    intro u hu
    simp only [Bool.and_eq_true, beq_iff_eq, not_and]
    exact hb u hu
  rw [hA, hB]

/-- Witness for C6: a store holding only `x@y`, queried for the unknown
email `z@w`, versus a store holding `x@y` with digest `right`, queried for
`x@y` with the wrong password `wrong` (hash = identity): both logins return
the same value. -/
theorem login_uniform_failure_witness :
    login_user (fun p => p) (⟨[⟨1, "U", "x@y", "right"⟩], 2, [], 1⟩ : AppState) "z@w" "right"
      = login_user (fun p => p) (⟨[⟨1, "U", "x@y", "right"⟩], 2, [], 1⟩ : AppState) "x@y" "wrong" :=
  login_uniform_failure (fun p => p)
    (⟨[⟨1, "U", "x@y", "right"⟩], 2, [], 1⟩ : AppState)
    (⟨[⟨1, "U", "x@y", "right"⟩], 2, [], 1⟩ : AppState)
    "z@w" "right" "x@y" "wrong" (by decide) (by decide)

lemma strftimeYM_eq_iff (dt m : String) (h7 : m.data.length = 7) :
    strftimeYM dt = m ↔ m.data <+: dt.data := by
  rw [List.prefix_iff_eq_take, h7]
  unfold strftimeYM
  rw [String.ext_iff]
  exact ⟨fun h => h.symm, fun h => h.symm⟩

/-- C7: filtering a customer's ledger by a specific `YYYY-MM` month string
returns exactly that customer's transactions whose stored timestamp string
starts with that seven-character year-month prefix, and the result is
ordered by timestamp descending. -/
theorem get_transactions_month_filter (s : AppState) (cid : Nat) (m : String)
    (h7 : m.data.length = 7) :
    (∀ t : Transaction, t ∈ get_transactions s cid (some m) ↔
        (t ∈ s.transactions ∧ t.customer_id = cid ∧ m.data <+: t.date_time.data))
    ∧ List.Sorted tsDesc (get_transactions s cid (some m)) := by
  have h1 : (m != "") = true := by
    rw [bne_iff_ne]
    intro e
    subst e
    simp at h7
  have h2 : (m != "All Months") = true := by
    rw [bne_iff_ne]
    intro e
    subst e
    exact absurd h7 (by decide)
  refine ⟨?_, List.sorted_insertionSort tsDesc _⟩
  intro t
  simp only [get_transactions, h1, h2, Bool.and_self, if_true]
  rw [(List.perm_insertionSort tsDesc _).mem_iff, List.mem_filter]
  simp only [Bool.and_eq_true, beq_iff_eq, and_assoc]
  rw [strftimeYM_eq_iff t.date_time m h7]

/-- Witness for C7: in a store with two March-2024 transactions (one per
customer) and one February-2024 transaction, filtering customer 1 by
`2024-03` keeps exactly the March transaction of customer 1, sorted. -/
theorem get_transactions_month_filter_witness :
    (∀ t : Transaction, t ∈ get_transactions s1 1 (some "2024-03") ↔
        (t ∈ s1.transactions ∧ t.customer_id = 1
          ∧ "2024-03".data <+: t.date_time.data))
    ∧ List.Sorted tsDesc (get_transactions s1 1 (some "2024-03")) :=
  get_transactions_month_filter s1 1 "2024-03" (by decide)

/-- Counterexample for C10 as stated: the empty string is neither `"All
Months"` nor an absent filter, yet it is NOT applied as a year-month filter
(`if month_filter and ...` treats `""` as falsy): no stored transaction has
year-month `""`, but `get_transactions` with filter `""` still returns
customer 1's transaction `tx1`, where the claim predicts an empty result. -/
theorem get_transactions_empty_filter_cex :
    ("" : String) ≠ "All Months"
    ∧ (∀ t ∈ s1.transactions, strftimeYM t.date_time ≠ "")
    ∧ tx1 ∈ get_transactions s1 1 (some "") := by
  refine ⟨by decide, by decide, ?_⟩
  have hcond : (("" : String) != "" && ("" : String) != "All Months") = false := by
    decide
  simp only [get_transactions, hcond, Bool.false_eq_true, if_false]
  rw [(List.perm_insertionSort tsDesc _).mem_iff, List.mem_filter]
  exact ⟨by simp [s1], by decide⟩

/-- C10 (amended): `get_transactions` treats the sentinel `"All Months"`,
an absent filter, and the empty string (every Python-falsy filter value)
alike as "no month restriction", returning all of the customer's
transactions ordered by timestamp descending; every other string is applied
as a year-month filter, so an unrecognized non-empty sentinel such as
`"All"` matches only transactions whose year-month portion equals it. -/
theorem get_transactions_falsy_filter (s : AppState) (cid : Nat) :
    get_transactions s cid (some "All Months") = get_transactions s cid none
    ∧ get_transactions s cid (some "") = get_transactions s cid none
    ∧ (∀ t : Transaction, t ∈ get_transactions s cid none ↔
        (t ∈ s.transactions ∧ t.customer_id = cid))
    ∧ List.Sorted tsDesc (get_transactions s cid none)
    ∧ (∀ m : String, m ≠ "" → m ≠ "All Months" →
        ∀ t : Transaction, t ∈ get_transactions s cid (some m) ↔
          (t ∈ s.transactions ∧ t.customer_id = cid ∧ strftimeYM t.date_time = m)) := by
  have hall : (("All Months" : String) != "" && ("All Months" : String) != "All Months")
      = false := by decide
  have hemp : (("" : String) != "" && ("" : String) != "All Months") = false := by
    decide
  refine ⟨by simp only [get_transactions, hall, Bool.false_eq_true, if_false],
          by simp only [get_transactions, hemp, Bool.false_eq_true, if_false],
          ?_, List.sorted_insertionSort tsDesc _, ?_⟩
  · intro t
    simp only [get_transactions]
    rw [(List.perm_insertionSort tsDesc _).mem_iff, List.mem_filter]
    simp only [Bool.and_eq_true, beq_iff_eq]
  · intro m hm1 hm2 t
    have hcond : (m != "" && m != "All Months") = true := by
      simp only [Bool.and_eq_true, bne_iff_ne]
      exact ⟨hm1, hm2⟩
    simp only [get_transactions, hcond, if_true]
    rw [(List.perm_insertionSort tsDesc _).mem_iff, List.mem_filter]
    simp only [Bool.and_eq_true, beq_iff_eq, and_assoc]

/-- Witness for C10 (amended): on the three-row store, filtering by
`"All Months"` coincides with no filter, and the unrecognized sentinel
`"All"` is applied as a (never-matching) year-month filter. -/
theorem get_transactions_falsy_filter_witness :
    get_transactions s1 1 (some "All Months") = get_transactions s1 1 none
    ∧ (∀ t : Transaction, t ∈ get_transactions s1 1 (some "All") ↔
        (t ∈ s1.transactions ∧ t.customer_id = 1 ∧ strftimeYM t.date_time = "All")) :=
  ⟨(get_transactions_falsy_filter s1 1).1,
   (get_transactions_falsy_filter s1 1).2.2.2.2 "All" (by decide) (by decide)⟩
